import Mathlib

/-!
Verification development for the retrieval pipeline of an e-commerce support
chatbot.  The definitions below are a shallow embedding of the Python sources
`src/text_processor.py` and `src/agents/rag_agent.py`:

* pure Python functions become Lean functions;
* Python machine integers are `Nat` with explicit `% 2 ^ 32` where the MD5
  arithmetic wraps;
* Python floats in the scoring / embedding code only ever take dyadic values
  (multiples of 0.1 and 0.5 built by exact additions), so they are modelled
  exactly as rationals (`ℚ`);
* fallible code (Python exceptions) is modelled with `Except String`;
* external collaborators (the Milvus client, the LLM backend, the filesystem)
  are parameters of the functions that call them.

Python string caveats, fixed once here: `str.lower` and the regex class `\w`
are modelled at ASCII precision (the repository data and all inputs used in
the theorems are ASCII); `str.split()` / `str.strip()` use the ASCII
whitespace set, which is what CPython uses for ASCII text.
-/

/-! ### Python string primitives -/

/-- The whitespace characters recognised by Python `str.split()` /
`str.strip()` / regex `\s` on ASCII text. -/
def pyIsSpace (c : Char) : Bool :=
  c = ' ' ∨ c = '\t' ∨ c = '\n' ∨ c = '\x0d' ∨ c = '\x0b' ∨ c = '\x0c'

/-- ASCII `str.lower` (CPython lowercases A–Z for ASCII input). -/
def strLower (s : String) : String :=
  String.mk (s.toList.map Char.toLower)

/-- Helper for `strIn`: does `n` occur as a contiguous sublist of the second
argument? -/
def strInAux (n : List Char) : List Char → Bool
  | [] => n.isEmpty
  | c :: t => n.isPrefixOf (c :: t) || strInAux n t

/-- Python `needle in hay` on strings: substring containment. -/
def strIn (needle hay : String) : Bool :=
  strInAux needle.toList hay.toList

/-- Helper for `pySplitWs`: splits a character list into maximal runs of
non-whitespace characters. -/
def wsSplitAux : List Char → List Char → List String
  | [], acc => if acc.isEmpty then [] else [String.mk acc.reverse]
  | c :: rest, acc =>
    if pyIsSpace c then
      if acc.isEmpty then wsSplitAux rest [] else String.mk acc.reverse :: wsSplitAux rest []
    else
      wsSplitAux rest (c :: acc)

/-- Python `s.split()` (no separator): maximal non-whitespace runs, empties
dropped. -/
def pySplitWs (s : String) : List String :=
  wsSplitAux s.toList []

/-- `len(s.split())`, the word-count measure used throughout `chunk_text`. -/
def wordCount (s : String) : Nat :=
  (pySplitWs s).length

/-- Python `" ".join(xs)`. -/
def joinSpace (xs : List String) : String :=
  String.intercalate " " xs

/-- Python `s.strip()`: remove leading and trailing whitespace. -/
def pyStrip (s : String) : String :=
  String.mk (((s.toList.dropWhile pyIsSpace).reverse.dropWhile pyIsSpace).reverse)

/-- An apostrophe character, for building string literals of the source. -/
def apos : String := String.singleton (Char.ofNat 39)

/-! ### UTF-8 encoding (`text.encode()` in `generate_embedding`) -/

/-- UTF-8 encoding of a single code point, as byte values. -/
def utf8Char (c : Char) : List Nat :=
  let n := c.toNat
  if n < 128 then [n]
  else if n < 2048 then [192 + n / 64, 128 + n % 64]
  else if n < 65536 then [224 + n / 4096, 128 + (n / 64) % 64, 128 + n % 64]
  else [240 + n / 262144, 128 + (n / 4096) % 64, 128 + (n / 64) % 64, 128 + n % 64]

/-- Python `text.encode()`: UTF-8 bytes of the string. -/
def utf8Bytes (s : String) : List Nat :=
  s.toList.flatMap utf8Char

/-! ### MD5 (`hashlib.md5`), on `Nat` with explicit wrapping at `2 ^ 32` -/

/-- Truncation to a 32-bit word. -/
def m32 (x : Nat) : Nat := x % 4294967296

/-- 32-bit bitwise complement (xor with the all-ones mask). -/
def not32 (x : Nat) : Nat := x ^^^ 4294967295

/-- 32-bit left rotation (the operand is a 32-bit word). -/
def rotl (x s : Nat) : Nat :=
  m32 (x <<< s) ||| (x >>> (32 - s))

/-- The 64 MD5 sine-derived round constants (RFC 1321). -/
def md5K : List Nat :=
  [0xd76aa478, 0xe8c7b756, 0x242070db, 0xc1bdceee,
   0xf57c0faf, 0x4787c62a, 0xa8304613, 0xfd469501,
   0x698098d8, 0x8b44f7af, 0xffff5bb1, 0x895cd7be,
   0x6b901122, 0xfd987193, 0xa679438e, 0x49b40821,
   0xf61e2562, 0xc040b340, 0x265e5a51, 0xe9b6c7aa,
   0xd62f105d, 0x02441453, 0xd8a1e681, 0xe7d3fbc8,
   0x21e1cde6, 0xc33707d6, 0xf4d50d87, 0x455a14ed,
   0xa9e3e905, 0xfcefa3f8, 0x676f02d9, 0x8d2a4c8a,
   0xfffa3942, 0x8771f681, 0x6d9d6122, 0xfde5380c,
   0xa4beea44, 0x4bdecfa9, 0xf6bb4b60, 0xbebfbc70,
   0x289b7ec6, 0xeaa127fa, 0xd4ef3085, 0x04881d05,
   0xd9d4d039, 0xe6db99e5, 0x1fa27cf8, 0xc4ac5665,
   0xf4292244, 0x432aff97, 0xab9423a7, 0xfc93a039,
   0x655b59c3, 0x8f0ccc92, 0xffeff47d, 0x85845dd1,
   0x6fa87e4f, 0xfe2ce6e0, 0xa3014314, 0x4e0811a1,
   0xf7537e82, 0xbd3af235, 0x2ad7d2bb, 0xeb86d391]

/-- The 64 MD5 per-round rotation amounts (RFC 1321). -/
def md5S : List Nat :=
  [7, 12, 17, 22, 7, 12, 17, 22, 7, 12, 17, 22, 7, 12, 17, 22,
   5, 9, 14, 20, 5, 9, 14, 20, 5, 9, 14, 20, 5, 9, 14, 20,
   4, 11, 16, 23, 4, 11, 16, 23, 4, 11, 16, 23, 4, 11, 16, 23,
   6, 10, 15, 21, 6, 10, 15, 21, 6, 10, 15, 21, 6, 10, 15, 21]

/-- Little-endian 32-bit word `j` of a 64-byte block. -/
def md5WordAt (blk : List Nat) (j : Nat) : Nat :=
  blk.getD (4 * j) 0 + 256 * blk.getD (4 * j + 1) 0 +
    65536 * blk.getD (4 * j + 2) 0 + 16777216 * blk.getD (4 * j + 3) 0

/-- One MD5 round: state `(a, b, c, d)`, round index `i`, message words `M`. -/
def md5Round (M : Nat → Nat) (st : Nat × Nat × Nat × Nat) (i : Nat) :
    Nat × Nat × Nat × Nat :=
  let a := st.1
  let b := st.2.1
  let c := st.2.2.1
  let d := st.2.2.2
  let f :=
    if i < 16 then (b &&& c) ||| (not32 b &&& d)
    else if i < 32 then (d &&& b) ||| (not32 d &&& c)
    else if i < 48 then b ^^^ c ^^^ d
    else c ^^^ (b ||| not32 d)
  let g :=
    if i < 16 then i
    else if i < 32 then (5 * i + 1) % 16
    else if i < 48 then (3 * i + 5) % 16
    else (7 * i) % 16
  let tmp := m32 (f + a + md5K.getD i 0 + M g)
  (d, m32 (b + rotl tmp (md5S.getD i 0)), b, c)

/-- Process one 64-byte block into the running MD5 state. -/
def md5ProcessBlock (st : Nat × Nat × Nat × Nat) (blk : List Nat) :
    Nat × Nat × Nat × Nat :=
  let r := (List.range 64).foldl (md5Round (md5WordAt blk)) st
  (m32 (st.1 + r.1), m32 (st.2.1 + r.2.1),
   m32 (st.2.2.1 + r.2.2.1), m32 (st.2.2.2 + r.2.2.2))

/-- Little-endian byte serialisation of a 32-bit word. -/
def le4 (n : Nat) : List Nat :=
  [n % 256, (n >>> 8) % 256, (n >>> 16) % 256, (n >>> 24) % 256]

/-- Little-endian byte serialisation of the 64-bit message bit length. -/
def le8 (n : Nat) : List Nat :=
  (List.range 8).map (fun i => (n >>> (8 * i)) % 256)

/-- MD5 padding: append `0x80`, zero-pad to 56 mod 64, append the bit length. -/
def md5Pad (msg : List Nat) : List Nat :=
  let z := (120 - ((msg.length + 1) % 64)) % 64
  msg ++ [0x80] ++ List.replicate z 0 ++ le8 ((8 * msg.length) % (2 ^ 64))

/-- Split a byte list into 64-byte blocks. -/
def toBlocks : List Nat → List (List Nat)
  | [] => []
  | c :: rest => (c :: rest).take 64 :: toBlocks ((c :: rest).drop 64)
termination_by l => l.length
decreasing_by simp [List.length_drop]; omega

/-- MD5 digest of a byte string: 16 bytes. -/
def md5Digest (msg : List Nat) : List Nat :=
  let st := (toBlocks (md5Pad msg)).foldl md5ProcessBlock
    (0x67452301, 0xefcdab89, 0x98badcfe, 0x10325476)
  le4 st.1 ++ le4 st.2.1 ++ le4 st.2.2.1 ++ le4 st.2.2.2

/-- A nibble as a lowercase hex character (as `hexdigest` prints it). -/
def toHexChar (n : Nat) : Char :=
  if n = 0 then '0' else if n = 1 then '1' else if n = 2 then '2'
  else if n = 3 then '3' else if n = 4 then '4' else if n = 5 then '5'
  else if n = 6 then '6' else if n = 7 then '7' else if n = 8 then '8'
  else if n = 9 then '9' else if n = 10 then 'a' else if n = 11 then 'b'
  else if n = 12 then 'c' else if n = 13 then 'd' else if n = 14 then 'e'
  else 'f'

/-- `hashlib.md5(text.encode()).hexdigest()` as a character list. -/
def md5hex (t : String) : List Char :=
  (md5Digest (utf8Bytes t)).flatMap (fun b => [toHexChar (b / 16), toHexChar (b % 16)])

/-- Value of a lowercase hex digit (`hexdigest` emits only `0`–`9`, `a`–`f`;
other characters cannot occur and are given value 0). -/
def hexVal : Char → Nat
  | '0' => 0 | '1' => 1 | '2' => 2 | '3' => 3 | '4' => 4
  | '5' => 5 | '6' => 6 | '7' => 7 | '8' => 8 | '9' => 9
  | 'a' => 10 | 'b' => 11 | 'c' => 12 | 'd' => 13 | 'e' => 14
  | 'f' => 15 | _ => 0

/-- Python `int(s, 16)` on a hex-digit string. -/
def hexToNat (l : List Char) : Nat :=
  l.foldl (fun acc c => 16 * acc + hexVal c) 0

/-- `int(hashlib.md5(text.encode()).hexdigest()[:8], 16)` from
`RAGRetrieverAgent.generate_embedding` (rag_agent.py lines 236–237). -/
def hashInt (t : String) : Nat :=
  hexToNat ((md5hex t).take 8)

/-- The hash-based fallback path of `RAGRetrieverAgent.generate_embedding`
(rag_agent.py lines 234–240), taken when no sentence-embedding model is
loaded: `[(hash_int >> i) % 2 - 0.5 for i in range(384)]`.  The float values
are exact dyadics, modelled in `ℚ`. -/
def generate_embedding (t : String) : List ℚ :=
  (List.range 384).map (fun i => (((hashInt t >>> i) % 2 : Nat) : ℚ) - 0.5)

/-! ### Text chunking (`TextProcessor` in text_processor.py)

`TextProcessor.__init__` stores `min_chunk_size`, `max_chunk_size` (defaults
200 and 500 from `chunk_size_range`) and `overlap_words` (default 50); they
appear below as explicit parameters `minSz`, `maxSz`, `overlap`. -/

/-- ASCII regex `\w`: letters, digits, underscore. -/
def isWordChar (c : Char) : Bool :=
  c.isAlpha || c.isDigit || c = '_'

/-- The punctuation kept by the character filter of `_clean_text`. -/
def isKeptPunct (c : Char) : Bool :=
  c = '.' || c = ',' || c = ';' || c = ':' || c = '!' || c = '?' ||
    c = '-' || c = '(' || c = ')'

/-- Helper for `clean_text`: replace each maximal whitespace run with a single
space (regex `re.sub` of one-or-more whitespace with a space).  The flag
records whether we are inside a run whose space was already emitted. -/
def collapseWsAux : Bool → List Char → List Char
  | _, [] => []
  | inRun, c :: rest =>
    if pyIsSpace c then
      if inRun then collapseWsAux true rest else ' ' :: collapseWsAux true rest
    else c :: collapseWsAux false rest

/-- `TextProcessor._clean_text` (text_processor.py lines 310–318): collapse
whitespace runs, drop characters outside word characters, whitespace and the
kept punctuation set, then strip. -/
def clean_text (s : String) : String :=
  pyStrip (String.mk
    ((collapseWsAux false s.toList).filter
      (fun c => isWordChar c || pyIsSpace c || isKeptPunct c)))

/-- Sentence-terminal punctuation of `_split_into_sentences`. -/
def isSentPunct (c : Char) : Bool :=
  c = '.' || c = '!' || c = '?'

/-- Helper for `split_into_sentences`: the pieces of `re.split` on
one-or-more of `.!?` followed by one-or-more whitespace, as a character
state machine.  `pend` holds a terminal-punctuation run whose fate is
undecided (reversed), `acc` the current piece (reversed).  A match of the
pattern exists at a position exactly when the maximal punctuation run
starting there is followed by a whitespace character, so: punctuation
extends `pend`; whitespace after a non-empty `pend` is a boundary (the run
is separator, the piece is emitted); any other character after `pend`
returns the run to the piece.  A run at the end of the text stays in the
last piece.  The one-or-more whitespace of the separator is consumed greedily by
`re.split`; here any whitespace beyond the first is left at the head of the
next piece, where the strip in `split_into_sentences` removes it — no new
match can begin with whitespace, so the pieces after stripping coincide
with the Python ones. -/
def splitSentAux : List Char → List Char → List Char → List (List Char)
  | [], pend, acc => [(pend ++ acc).reverse]
  | c :: rest, pend, acc =>
    if isSentPunct c then
      splitSentAux rest (c :: pend) acc
    else if pyIsSpace c then
      match pend with
      | [] => splitSentAux rest [] (c :: acc)
      | _ :: _ => acc.reverse :: splitSentAux rest [] []
    else
      splitSentAux rest [] (c :: (pend ++ acc))

/-- `TextProcessor._split_into_sentences` (text_processor.py lines 320–329):
regex split on terminal punctuation followed by whitespace, then strip each
piece and drop the empty ones. -/
def split_into_sentences (s : String) : List String :=
  ((splitSentAux s.toList [] []).map (fun cs => pyStrip (String.mk cs))).filter
    (fun t => ¬ t.isEmpty)

/-- Source-document metadata carried into chunks.  The Python dict also
carries free-form keys; the chunking code reads only `filename` (via
`metadata.get`, with `"unknown"` as the absent-key default — absence is not
modelled, the field is total). -/
structure DocMeta where
  filename : String
  topic : String
deriving DecidableEq

/-- The `TextChunk` dataclass (text_processor.py lines 27–35).  The chunk
metadata dict is the source metadata plus `chunk_number` (kept as a field
here) and `created_at`; `created_at` is `datetime.now()`, wall-clock time
outside this model. -/
structure TextChunk where
  chunk_id : String
  text : String
  word_count : Nat
  source_file : String
  chunk_number : Nat
deriving DecidableEq

/-- Python `f"_\x7bn:03d\x7d"` zero-padding to width 3. -/
def pad3 (n : Nat) : String :=
  let s := toString n
  if s.length < 3 then String.mk (List.replicate (3 - s.length) '0') ++ s else s

/-- `TextProcessor._create_chunk` (text_processor.py lines 350–366). -/
def create_chunk (meta : DocMeta) (text : String) (num : Nat) (wc : Nat) :
    TextChunk :=
  { chunk_id := meta.filename ++ "_" ++ pad3 num
    text := text
    word_count := wc
    source_file := meta.filename
    chunk_number := num }

/-- `TextProcessor._get_overlap_sentences` (text_processor.py lines 331–348).
Note the Python gotcha faithfully kept: with `overlap_words = 0` the slice
of the last `-0` words is the whole word list. -/
def get_overlap_sentences (overlap : Nat) (current : List String) : List String :=
  if current.isEmpty then []
  else
    let ws := pySplitWs (joinSpace current)
    if ws.length ≤ overlap then current
    else if overlap = 0 then split_into_sentences (joinSpace ws)
    else split_into_sentences (joinSpace (ws.drop (ws.length - overlap)))

/-- Accumulator of the sentence loop in `chunk_text`. -/
structure ChunkState where
  chunks : List TextChunk
  current : List String
  count : Nat
  num : Nat
deriving DecidableEq

/-- One iteration of the sentence loop of `chunk_text` (text_processor.py
lines 280–299). -/
def chunkStep (minSz maxSz overlap : Nat) (meta : DocMeta)
    (st : ChunkState) (sentence : String) : ChunkState :=
  let sw := wordCount sentence
  if maxSz < st.count + sw ∧ st.current ≠ [] then
    let emitted :=
      if minSz ≤ st.count then
        st.chunks ++ [create_chunk meta (joinSpace st.current) st.num st.count]
      else st.chunks
    let num2 := if minSz ≤ st.count then st.num + 1 else st.num
    let cur2 := get_overlap_sentences overlap st.current ++ [sentence]
    { chunks := emitted
      current := cur2
      count := wordCount (joinSpace cur2)
      num := num2 }
  else
    { st with current := st.current ++ [sentence], count := st.count + sw }

/-- `TextProcessor.chunk_text` (text_processor.py lines 254–308): empty input
short-circuits, otherwise clean, split into sentences, run the greedy loop,
and append the final chunk only when it reaches the minimum size. -/
def chunk_text (minSz maxSz overlap : Nat) (meta : DocMeta) (text : String) :
    List TextChunk :=
  if pyStrip text = "" then []
  else
    let sentences := split_into_sentences (clean_text text)
    let st := sentences.foldl (chunkStep minSz maxSz overlap meta) ⟨[], [], 0, 1⟩
    if st.current ≠ [] ∧ minSz ≤ st.count then
      st.chunks ++ [create_chunk meta (joinSpace st.current) st.num st.count]
    else st.chunks

/-! ### RAG retrieval (`RAGRetrieverAgent` in agents/rag_agent.py)

The modelled configuration is the one the claims are about: no
sentence-transformer model is loaded (`self.embedding_model is None`, so
`generate_embedding` always takes the hash fallback), and the local
file-backed database together with the remote Milvus collection are external
collaborators passed as parameters:

* `db : Option (Except String (List LocalDoc))` — `none` when
  `data/vector_database.json` does not exist, `some (.error e)` when it
  exists but reading or parsing it raises, `some (.ok docs)` when it loads;
* `remote : List ℚ → Nat → Except String (List SearchResult)` — the outcome
  of `collection.search(data=[emb], limit=top_k)` together with the hit
  conversion loop, `.error` when any of it raises. -/

/-- Metadata blob of a search result / stored document.  The Python code
reads `topic` and `filename` via `dict.get` with `""` as the absent-key
default (absence itself is not modelled: an absent key behaves exactly like
the value `""` in the scoring code) and `source` is carried opaquely. -/
structure ResMeta where
  filename : String
  topic : String
  source : String
deriving DecidableEq

/-- The `SearchResult` dataclass (rag_agent.py lines 37–43).  Scores are
exact decimals, modelled in `ℚ`. -/
structure SearchResult where
  id : Int
  text : String
  metadata : ResMeta
  similarity_score : ℚ
deriving DecidableEq

/-- One record of the file-backed database (`documents` entries of
`data/vector_database.json`): fields `id`, `text`, `metadata`. -/
structure LocalDoc where
  id : Int
  text : String
  metadata : ResMeta
deriving DecidableEq

/-- Keyword relevance score of one document (rag_agent.py lines 315–325):
0.3 per query word contained in the lowered text, plus 0.5 for a topic
match and 0.4 for a filename match.  `ql` is the already-lowered query. -/
def scoreDoc (ql : String) (d : LocalDoc) : ℚ :=
  (pySplitWs ql).foldl
    (fun s w =>
      (if strIn w (strLower d.text) then s + 0.3 else s) +
        (if strIn w (strLower d.metadata.topic) then 0.5 else 0) +
        (if strIn w (strLower d.metadata.filename) then 0.4 else 0))
    0

/-- Stable insertion of a scored document into a list sorted by descending
score: placed before the first entry whose score is not larger.  -/
def insDesc (x : ℚ × LocalDoc) : List (ℚ × LocalDoc) → List (ℚ × LocalDoc)
  | [] => [x]
  | y :: ys => if y.1 ≤ x.1 then x :: y :: ys else y :: insDesc x ys

/-- Python `scored_results.sort(key=score, reverse=True)`: `list.sort` is a
stable sort, so descending with ties in original order; this stable
insertion sort computes the same list. -/
def sortDesc (l : List (ℚ × LocalDoc)) : List (ℚ × LocalDoc) :=
  l.foldr insDesc []

/-- The file-database tier of `_mock_search_results` (rag_agent.py lines
306–345): score every document, keep strictly positive scores, sort by
descending score, take the top 3, cap scores at 1.0.  `ql` is the lowered
query. -/
def localSearch (ql : String) (docs : List LocalDoc) : List SearchResult :=
  let scored := docs.filterMap
    (fun d => let s := scoreDoc ql d; if 0 < s then some (s, d) else none)
  ((sortDesc scored).take 3).map
    (fun p => { id := p.2.id, text := p.2.text, metadata := p.2.metadata,
                similarity_score := min p.1 1 })

/-- The three hardcoded fallback records (rag_agent.py lines 354–373). -/
def defaultMockResults : List SearchResult :=
  [{ id := 1
     text := "Our return policy allows returns within 30 days of purchase. Items must be in original condition with tags attached. Refunds are processed within 5-7 business days."
     metadata := { filename := "return_policy.pdf", topic := "returns",
                   source := "policy_documents" }
     similarity_score := 0.85 },
   { id := 2
     text := "For order tracking, please use your order number and email address on our tracking page. Orders typically ship within 1-2 business days and arrive within 5-7 days."
     metadata := { filename := "shipping_guide.pdf", topic := "shipping",
                   source := "customer_service" }
     similarity_score := 0.78 },
   { id := 3
     text := "Our customer service team is available Monday-Friday 9AM-6PM EST. You can reach us via email at support@ecommerce.com or phone at 1-800-SHOP-NOW."
     metadata := { filename := "contact_info.pdf", topic := "support",
                   source := "customer_service" }
     similarity_score := 0.72 }]

/-- The hardcoded-default tier (rag_agent.py lines 375–383): keep the
records containing any query word, return the top 3 of those, or the first
record when nothing matches.  `ql` is the lowered query. -/
def hardcodedTier (ql : String) : List SearchResult :=
  let relevant := defaultMockResults.filter
    (fun r => (pySplitWs ql).any (fun w => strIn w (strLower r.text)))
  if relevant ≠ [] then relevant.take 3 else defaultMockResults.take 1

/-- `RAGRetrieverAgent._mock_search_results` (rag_agent.py lines 295–383)
for a string query: the file tier when the file exists, loads, and yields a
non-empty scored list; the hardcoded tier otherwise (file absent, load
raised, or no positive-score match — all three fall through). -/
def mock_search_results (query : String)
    (db : Option (Except String (List LocalDoc))) : List SearchResult :=
  match db with
  | some (Except.ok docs) =>
    let rs := localSearch (strLower query) docs
    if rs ≠ [] then rs else hardcodedTier (strLower query)
  | _ => hardcodedTier (strLower query)

/-- `RAGRetrieverAgent._search_milvus_collection` (rag_agent.py lines
252–293): generate the query embedding, fall back to the file tiers when
the embedding is empty, when the remote call raises, or when it returns no
hits; otherwise return the converted hits. -/
def search_milvus_collection
    (remote : List ℚ → Nat → Except String (List SearchResult))
    (query : String) (topK : Nat)
    (db : Option (Except String (List LocalDoc))) : List SearchResult :=
  let emb := generate_embedding query
  if emb = [] then mock_search_results query db
  else
    match remote emb topK with
    | Except.error _ => mock_search_results query db
    | Except.ok hits =>
      if hits = [] then mock_search_results query db else hits

/-- `RAGRetrieverAgent.search_documents` (rag_agent.py lines 242–250):
remote tier only when `self.milvus_connected` and `self.collection` are
both set, file tiers otherwise. -/
def search_documents (connected hasCollection : Bool)
    (remote : List ℚ → Nat → Except String (List SearchResult))
    (query : String) (topK : Nat)
    (db : Option (Except String (List LocalDoc))) : List SearchResult :=
  if connected && hasCollection then
    search_milvus_collection remote query topK db
  else
    mock_search_results query db

/-! #### Adapter state across calls (claim C7)

`search_documents` and `_search_milvus_collection` read
`self.milvus_connected` / `self.collection` and assign neither (no statement
in rag_agent.py lines 242–293 writes them), so the state-passing embedding
returns the fields unchanged; the middle component records whether the
remote tier was attempted on this call. -/

/-- The adapter fields consulted by `search_documents`. -/
structure AgentState where
  connected : Bool
  hasCollection : Bool
deriving DecidableEq

/-- State-passing form of `search_documents`: result is (state after the
call, whether the remote tier was attempted, results). -/
def search_documents_st (st : AgentState)
    (remote : List ℚ → Nat → Except String (List SearchResult))
    (query : String) (topK : Nat)
    (db : Option (Except String (List LocalDoc))) :
    AgentState × Bool × List SearchResult :=
  if st.connected && st.hasCollection then
    (st, true, search_milvus_collection remote query topK db)
  else
    (st, false, mock_search_results query db)

/-! #### Answer synthesis (`synthesize_answer`) -/

/-- A chat message for the LLM backend. -/
structure ChatMsg where
  role : String
  content : String
deriving DecidableEq

/-- The fixed no-information message of `synthesize_answer`
(rag_agent.py line 388). -/
def noInfoMsg : String :=
  "I couldn" ++ apos ++ "t find any relevant information for your query. Please contact customer service for assistance."

/-- The system prompt of `synthesize_answer` (rag_agent.py line 401). -/
def synthSystemPrompt : String :=
  "You are a helpful customer service assistant. Use the provided context to answer the user" ++ apos ++ "s question accurately and concisely. If the context doesn" ++ apos ++ "t contain relevant information, say so clearly."

/-- `RAGRetrieverAgent.synthesize_answer` (rag_agent.py lines 385–415).
`llm` is `self.llm_processor.generate_completion` (an external collaborator:
`.error` when it raises).  Empty results short-circuit to the fixed message
before any LLM call; an LLM failure falls back to the raw text of the top result
with an attribution prefix.  Total: the function never raises. -/
def synthesize_answer (llm : List ChatMsg → Except String String)
    (query : String) (search_results : List SearchResult) : String :=
  match search_results with
  | [] => noInfoMsg
  | top :: _ =>
    let context := String.intercalate "\n\n"
      ((search_results.enum).map
        (fun p => "Document " ++ toString (p.1 + 1) ++ ": " ++ p.2.text))
    let messages :=
      [{ role := "system", content := synthSystemPrompt },
       { role := "user"
         content := "Question: " ++ query ++ "\n\nContext:\n" ++ context ++
           "\n\nPlease provide a helpful answer based on the context above." }]
    match llm messages with
    | Except.ok response => response
    | Except.error _ => "Based on our documentation: " ++ top.text

/-! #### Orchestration (`process_query`) -/

/-- One entry of the `sources` projection in the success envelope
(rag_agent.py lines 430–435): text truncated to 200 characters with an
ellipsis when longer. -/
structure SourceEntry where
  id : Int
  text : String
  metadata : ResMeta
  similarity_score : ℚ
deriving DecidableEq

/-- The text truncation of the sources projection. -/
def truncate200 (t : String) : String :=
  if 200 < t.length then t.take 200 ++ "..." else t

/-- Projection of a search result into the `sources` list of the envelope. -/
def mkSource (r : SearchResult) : SourceEntry :=
  { id := r.id, text := truncate200 r.text, metadata := r.metadata,
    similarity_score := r.similarity_score }

/-- The response envelope of `process_query`: the success dict has keys
`status`, `answer`, `sources`, `query`; the error dict has `status`,
`error`, `query`.  Absent keys are `none`. -/
structure Envelope where
  status : String
  answer : Option String
  sources : Option (List SourceEntry)
  error : Option String
  query : String
deriving DecidableEq

/-- `RAGRetrieverAgent.process_query` (rag_agent.py lines 417–446) as a
function of the outcomes of its two stages: the whole body is one `try`,
so a stage exception becomes the error envelope with `str(e)` and the
original query; otherwise the success envelope is built.  `search` is the
outcome of `self.search_documents(query, top_k=5)` and `synth` the outcome
of `self.synthesize_answer(query, search_results)`. -/
def process_query (search : Except String (List SearchResult))
    (synth : List SearchResult → Except String String)
    (query : String) : Envelope :=
  match search with
  | Except.error e =>
    { status := "error", answer := none, sources := none,
      error := some e, query := query }
  | Except.ok results =>
    match synth results with
    | Except.error e =>
      { status := "error", answer := none, sources := none,
        error := some e, query := query }
    | Except.ok answer =>
      { status := "success", answer := some answer,
        sources := some (results.map mkSource), error := none,
        query := query }

/-! #### Dynamically-typed queries (claim C5)

`process_query` has no validation of its `query` argument: a non-string
query flows into the tiers until a `.lower()` call raises `AttributeError`.
To state where that error arises, queries are modelled as dynamic values
and the tier functions additionally return the list of backend tiers they
touched: `Tier.localFile` is recorded when the database file exists and is
opened and parsed (rag_agent.py lines 302–306, which run before the query
is ever inspected), `Tier.hardcoded` when the hardcoded-record section is
entered (line 354). -/

/-- A dynamically-typed Python value: the modelled cases are a string query
and a non-string (integer) query. -/
inductive PyVal where
  | str : String → PyVal
  | int : Int → PyVal
deriving DecidableEq

/-- `str(e)` for the `AttributeError` raised by `(123).lower()`. -/
def pyLowerErr : String :=
  apos ++ "int" ++ apos ++ " object has no attribute " ++ apos ++ "lower" ++ apos

/-- `query.lower()` under dynamic typing. -/
def pyLower : PyVal → Except String String
  | PyVal.str s => Except.ok (strLower s)
  | PyVal.int _ => Except.error pyLowerErr

/-- `str(query)`, as used by f-string interpolation. -/
def pyStrOf : PyVal → String
  | PyVal.str s => s
  | PyVal.int n => toString n

/-- Backend tiers, for recording which tiers a call touched. -/
inductive Tier where
  | remote
  | localFile
  | hardcoded
deriving DecidableEq

/-- The hardcoded-default section of `_mock_search_results` under dynamic
typing: `query.lower()` at line 376 runs outside the `try` block, so its
`AttributeError` propagates. -/
def hardcodedPy (q : PyVal) : Except String (List SearchResult) :=
  match pyLower q with
  | Except.ok ql => Except.ok (hardcodedTier ql)
  | Except.error e => Except.error e

/-- `_mock_search_results` under dynamic typing, with the touched tiers.
Inside the `try` block (lines 298–347) the file is opened and parsed first;
`query.lower()` at line 307 raising is caught by the `except` at line 349
and falls through to the hardcoded section, where the second `.lower()`
raises uncaught. -/
def mock_search_results_py (q : PyVal)
    (db : Option (Except String (List LocalDoc))) :
    List Tier × Except String (List SearchResult) :=
  match db with
  | some (Except.ok docs) =>
    match pyLower q with
    | Except.ok ql =>
      let rs := localSearch ql docs
      if rs ≠ [] then ([Tier.localFile], Except.ok rs)
      else ([Tier.localFile, Tier.hardcoded], hardcodedPy q)
    | Except.error _ => ([Tier.localFile, Tier.hardcoded], hardcodedPy q)
  | some (Except.error _) => ([Tier.localFile, Tier.hardcoded], hardcodedPy q)
  | none => ([Tier.hardcoded], hardcodedPy q)

/-- The response envelope for a dynamically-typed query (`"query": query`
echoes the original value). -/
structure EnvelopePy where
  status : String
  answer : Option String
  sources : Option (List SourceEntry)
  error : Option String
  query : PyVal
deriving DecidableEq

/-- `synthesize_answer` under dynamic typing: the query is interpolated
with `str()` into the prompt. -/
def synthesize_answer_py (llm : List ChatMsg → Except String String)
    (q : PyVal) (rs : List SearchResult) : String :=
  synthesize_answer llm (pyStrOf q) rs

/-- `process_query` under dynamic typing, for the file-based (not
connected) agent configuration: `search_documents` goes straight to
`_mock_search_results`; an exception from it is caught by the `try` of
`process_query` and becomes the error envelope; otherwise synthesis (which
never raises) and the success envelope. -/
def process_query_py (llm : List ChatMsg → Except String String)
    (q : PyVal) (db : Option (Except String (List LocalDoc))) :
    List Tier × EnvelopePy :=
  match mock_search_results_py q db with
  | (evs, Except.error e) =>
    (evs, { status := "error", answer := none, sources := none,
            error := some e, query := q })
  | (evs, Except.ok rs) =>
    (evs, { status := "success",
            answer := some (synthesize_answer_py llm q rs),
            sources := some (rs.map mkSource), error := none, query := q })

/-- A placeholder chunk for indexing into concrete chunk lists. -/
def dummyChunk : TextChunk :=
  { chunk_id := "", text := "", word_count := 0, source_file := "",
    chunk_number := 0 }

/-! ## Helper lemmas -/

/-- The fallback embedding always has exactly 384 components. -/
theorem generate_embedding_length (t : String) :
    (generate_embedding t).length = 384 := by
  simp [generate_embedding]

/-- Every hex digit decodes below 16. -/
theorem hexVal_lt (c : Char) : hexVal c < 16 := by
  unfold hexVal
  split <;> norm_num

/-- Accumulator bound for the hex parser. -/
theorem hexToNat_aux (l : List Char) :
    ∀ acc : Nat,
      List.foldl (fun acc c => 16 * acc + hexVal c) acc l <
        16 ^ l.length * (acc + 1) := by
  induction l with
  | nil => intro acc; simp
  | cons c l ih =>
    intro acc
    have h2 : 16 * acc + hexVal c + 1 ≤ 16 * (acc + 1) := by
      have := hexVal_lt c
      omega
    calc List.foldl (fun acc c => 16 * acc + hexVal c) acc (c :: l)
        = List.foldl (fun acc c => 16 * acc + hexVal c) (16 * acc + hexVal c) l := rfl
      _ < 16 ^ l.length * (16 * acc + hexVal c + 1) := ih _
      _ ≤ 16 ^ l.length * (16 * (acc + 1)) := Nat.mul_le_mul_left _ h2
      _ = 16 ^ (c :: l).length * (acc + 1) := by
          simp [List.length_cons, pow_succ]
          ring

/-- The hex parser of `n` digits stays below `16 ^ n`. -/
theorem hexToNat_lt (l : List Char) : hexToNat l < 16 ^ l.length := by
  simpa [hexToNat] using hexToNat_aux l 0

/-- `hash_int` is parsed from 8 hex digits, hence below `2 ^ 32`. -/
theorem hashInt_lt (t : String) : hashInt t < 2 ^ 32 := by
  have h := hexToNat_lt ((md5hex t).take 8)
  have hl : ((md5hex t).take 8).length ≤ 8 := by
    simp [List.length_take]
  calc hashInt t < 16 ^ ((md5hex t).take 8).length := h
    _ ≤ 16 ^ 8 := Nat.pow_le_pow_right (by norm_num) hl
    _ = 2 ^ 32 := by norm_num

/-- `getD` on a mapped range evaluates the function. -/
theorem mapRange_getD (f : Nat → ℚ) (n i : Nat) (h : i < n) :
    ((List.range n).map f).getD i 0 = f i := by
  rw [List.getD_eq_getElem?_getD]
  simp [List.getElem?_map, List.getElem?_range, h]

/-- The fallback embedding is nonempty. -/
theorem generate_embedding_ne_nil (t : String) : generate_embedding t ≠ [] := by
  intro hh
  simpa [hh] using generate_embedding_length t

/-! ## Claims -/

/-- Claim C3: for every input text, the hash-based fallback path of
`generate_embedding` returns a vector of exactly 384 components, and two
calls with identical input text return identical vectors — the embedding is
a pure function of the text (the MD5 pipeline is fully modelled, with no
hidden state), so determinism is reflexivity. -/
theorem claim_C3 (t : String) :
    (generate_embedding t).length = 384 ∧
      generate_embedding t = generate_embedding t :=
  ⟨generate_embedding_length t, rfl⟩

/-- Claim C4: with an empty results sequence, `synthesize_answer` returns
exactly the fixed no-information message, for every query and every LLM
backend, before any LLM call; the function is total (never raises). -/
theorem claim_C4 (llm : List ChatMsg → Except String String) (query : String) :
    synthesize_answer llm query [] =
      "I couldn" ++ apos ++ "t find any relevant information for your query. Please contact customer service for assistance." :=
  rfl

/-- Claim C9: every component of the fallback embedding is `-0.5` or `0.5`,
and every component at index 32 through 383 is exactly `-0.5`, because
`hash_int` comes from 8 hex digits (so is below `2 ^ 32`) and shifting it
right by 32 or more yields 0. -/
theorem claim_C9 (t : String) :
    (∀ x ∈ generate_embedding t, x = -0.5 ∨ x = 0.5) ∧
      (∀ i, 32 ≤ i → i < 384 → (generate_embedding t).getD i 0 = -0.5) := by
  constructor
  · intro x hx
    simp only [generate_embedding, List.mem_map, List.mem_range] at hx
    obtain ⟨i, -, rfl⟩ := hx
    rcases Nat.mod_two_eq_zero_or_one (hashInt t >>> i) with h | h <;> rw [h]
    · left; norm_num
    · right; norm_num
  · intro i h32 h384
    have hz : hashInt t >>> i = 0 := by
      rw [Nat.shiftRight_eq_div_pow]
      exact Nat.div_eq_of_lt
        (lt_of_lt_of_le (hashInt_lt t) (Nat.pow_le_pow_right (by norm_num) h32))
    rw [generate_embedding, mapRange_getD _ _ _ h384, hz]
    norm_num

/-- Witness for C9 at the concrete text "abc": component 0 is one of the two
allowed values, and component 100 (an index in 32–383) is exactly `-0.5`. -/
theorem claim_C9_witness :
    ((((hashInt "abc" >>> 0) % 2 : Nat) : ℚ) - 0.5 = -0.5 ∨
      (((hashInt "abc" >>> 0) % 2 : Nat) : ℚ) - 0.5 = 0.5) ∧
    (32 ≤ 100 ∧ 100 < 384) ∧
    (generate_embedding "abc").getD 100 0 = -0.5 :=
  ⟨(claim_C9 "abc").1 _ (by
      simp only [generate_embedding]
      exact List.mem_map.mpr ⟨0, List.mem_range.mpr (by norm_num), rfl⟩),
   ⟨by norm_num, by norm_num⟩,
   (claim_C9 "abc").2 100 (by norm_num) (by norm_num)⟩

/-- Claim C6: `process_query` maps a search-stage failure to the error
envelope with the exception message and the original query, a
synthesis-stage failure likewise, and the success case to the success
envelope with answer, projected sources and query; the function is total,
so no exception reaches the caller. -/
theorem claim_C6 (query : String) (search : Except String (List SearchResult))
    (synth : List SearchResult → Except String String) :
    (∀ e, search = Except.error e →
      process_query search synth query =
        { status := "error", answer := none, sources := none,
          error := some e, query := query }) ∧
    (∀ rs e, search = Except.ok rs → synth rs = Except.error e →
      process_query search synth query =
        { status := "error", answer := none, sources := none,
          error := some e, query := query }) ∧
    (∀ rs ans, search = Except.ok rs → synth rs = Except.ok ans →
      process_query search synth query =
        { status := "success", answer := some ans,
          sources := some (rs.map mkSource), error := none,
          query := query }) := by
  refine ⟨?_, ?_, ?_⟩
  · intro e he
    subst he
    rfl
  · intro rs e hs hsy
    subst hs
    simp [process_query, hsy]
  · intro rs ans hs hsy
    subst hs
    simp [process_query, hsy]

/-- Witness for C6: the three envelope shapes at concrete stage outcomes. -/
theorem claim_C6_witness :
    process_query (Except.error "boom") (fun _ => Except.ok "a") "q1" =
      { status := "error", answer := none, sources := none,
        error := some "boom", query := "q1" } ∧
    process_query (Except.ok []) (fun _ => Except.error "llm down") "q2" =
      { status := "error", answer := none, sources := none,
        error := some "llm down", query := "q2" } ∧
    process_query (Except.ok []) (fun _ => Except.ok "fine") "q3" =
      { status := "success", answer := some "fine", sources := some [],
        error := none, query := "q3" } :=
  ⟨(claim_C6 "q1" _ _).1 "boom" rfl,
   (claim_C6 "q2" _ _).2.1 [] "llm down" rfl rfl,
   (claim_C6 "q3" _ _).2.2 [] "fine" rfl rfl⟩

/-- Counterexample to claim C7 as stated: with a connected adapter whose
remote search fails (`collection.search` raises), the failing call still
leaves the adapter state unchanged, and the very next search call attempts
the remote tier again — the code never flips `milvus_connected` to `False`
inside a search call, so there is no one-way CONNECTED-to-DEGRADED
transition to speak of. -/
theorem claim_C7_counterexample :
    ((search_documents_st ⟨true, true⟩
        (fun _ _ => Except.error "connection refused") "policy" 5 none).2.1
      = true) ∧
    ((search_documents_st ⟨true, true⟩
        (fun _ _ => Except.error "connection refused") "policy" 5 none).1
      = ⟨true, true⟩) ∧
    ((search_documents_st
        (search_documents_st ⟨true, true⟩
          (fun _ _ => Except.error "connection refused") "policy" 5 none).1
        (fun _ _ => Except.error "connection refused") "policy" 5 none).2.1
      = true) :=
  ⟨rfl, rfl, rfl⟩

/-- Claim C7, amended: a search call never modifies the adapter
connection state (the degrade is per-call only), and the remote tier is
attempted exactly when `milvus_connected` and `collection` are both set at
construction — regardless of any earlier in-call failures. -/
theorem claim_C7 (st : AgentState)
    (remote : List ℚ → Nat → Except String (List SearchResult))
    (q : String) (k : Nat) (db : Option (Except String (List LocalDoc))) :
    (search_documents_st st remote q k db).1 = st ∧
      ((search_documents_st st remote q k db).2.1 =
        (st.connected && st.hasCollection)) := by
  unfold search_documents_st
  by_cases h : st.connected && st.hasCollection <;> simp [h]

/-- Counterexample to claim C5 as stated: a non-string query does not fail
fast before touching any backend — with the database file present, the call
reads the local file tier (and enters the hardcoded tier) before the
`AttributeError` surfaces in the envelope. -/
theorem claim_C5_counterexample :
    Tier.localFile ∈
      (process_query_py (fun _ => Except.error "na") (PyVal.int 123)
        (some (Except.ok []))).1 ∧
    (process_query_py (fun _ => Except.error "na") (PyVal.int 123)
      (some (Except.ok []))).2.status = "error" := by
  constructor <;> decide

/-- Claim C5, amended: for every non-string (integer) query, the response
envelope has status "error", carries the `AttributeError` message from
`query.lower()` in its `error` field with the original query echoed — but
the failure is not a fail-fast validation: whenever the database file is
present it is read (and the hardcoded section entered) before the error
propagates. -/
theorem claim_C5 (n : Int) (db : Option (Except String (List LocalDoc)))
    (llm : List ChatMsg → Except String String) :
    (process_query_py llm (PyVal.int n) db).2.status = "error" ∧
    (process_query_py llm (PyVal.int n) db).2.error = some pyLowerErr ∧
    (process_query_py llm (PyVal.int n) db).2.query = PyVal.int n ∧
    (∀ x, db = some x →
      Tier.localFile ∈ (process_query_py llm (PyVal.int n) db).1) := by
  rcases db with _ | (e | docs) <;>
    simp [process_query_py, mock_search_results_py, hardcodedPy, pyLower]

/-- Witness for C5 at a concrete non-string query and present database. -/
theorem claim_C5_witness :
    Tier.localFile ∈
      (process_query_py (fun _ => Except.ok "x") (PyVal.int 7)
        (some (Except.ok []))).1 :=
  (claim_C5 7 (some (Except.ok [])) (fun _ => Except.ok "x")).2.2.2 _ rfl

/-- The probe query of the no-match scenario in the spec. -/
def zzzQuery : String := "zzz_no_match_xyz"

set_option maxRecDepth 16384 in
/-- The hardcoded tier on the no-match probe query: no default record text
contains the query word, so the filter is empty and the first record
is returned.  (Pure string computation; kernel-evaluated.) -/
theorem hardcoded_zzz :
    hardcodedTier (strLower zzzQuery) = defaultMockResults.take 1 := rfl

/-- Claim C1: whenever the remote tier raises or yields no hits inside
`search_documents` of a connected agent, the call returns the lower-tier
results (`_mock_search_results`) instead of raising; and for the no-match
query `"zzz_no_match_xyz"`, every lower-tier configuration (file with no
positive-score match, file absent, file unreadable) falls through to the
hardcoded default tier, which returns its first record.  All functions
involved are total, so no exception can propagate. -/
theorem claim_C1 :
    (∀ (remote : List ℚ → Nat → Except String (List SearchResult))
        (q : String) (k : Nat) (db : Option (Except String (List LocalDoc)))
        (msg : String),
      remote (generate_embedding q) k = Except.error msg →
      search_documents true true remote q k db = mock_search_results q db) ∧
    (∀ (remote : List ℚ → Nat → Except String (List SearchResult))
        (q : String) (k : Nat) (db : Option (Except String (List LocalDoc))),
      remote (generate_embedding q) k = Except.ok [] →
      search_documents true true remote q k db = mock_search_results q db) ∧
    (∀ docs : List LocalDoc, localSearch (strLower zzzQuery) docs = [] →
      mock_search_results zzzQuery (some (Except.ok docs)) =
        defaultMockResults.take 1) ∧
    (mock_search_results zzzQuery none = defaultMockResults.take 1) ∧
    (∀ e, mock_search_results zzzQuery (some (Except.error e)) =
      defaultMockResults.take 1) := by
  have hhard := hardcoded_zzz
  refine ⟨?_, ?_, ?_, ?_, ?_⟩
  · intro remote q k db msg hmsg
    simp [search_documents, search_milvus_collection,
      generate_embedding_ne_nil q, hmsg]
  · intro remote q k db hok
    simp [search_documents, search_milvus_collection,
      generate_embedding_ne_nil q, hok]
  · intro docs hempty
    simp [mock_search_results, hempty, hhard]
  · simp [mock_search_results, hhard]
  · intro e
    simp [mock_search_results, hhard]

/-- Witness for C1: a concrete failing remote backend falls back to the
file tiers, and the no-match query on an empty local store falls through
to the hardcoded default tier. -/
theorem claim_C1_witness :
    search_documents true true
        (fun _ _ => Except.error "connection reset") "returns" 5 none =
      mock_search_results "returns" none ∧
    mock_search_results zzzQuery (some (Except.ok [])) =
      defaultMockResults.take 1 :=
  ⟨claim_C1.1 _ "returns" 5 none "connection reset" rfl,
   claim_C1.2.2.1 [] rfl⟩

/-- Membership in a stable descending insertion is membership in the
inserted element or the original list. -/
theorem mem_insDesc {x y : ℚ × LocalDoc} :
    ∀ {l : List (ℚ × LocalDoc)}, x ∈ insDesc y l → x = y ∨ x ∈ l := by
  intro l
  induction l with
  | nil =>
    intro h
    simp [insDesc] at h
    simp [h]
  | cons a l ih =>
    intro h
    unfold insDesc at h
    split at h
    · simpa [List.mem_cons] using h
    · rcases List.mem_cons.mp h with h | h
      · simp [h]
      · rcases ih h with h | h <;> simp [h]

/-- The stable descending sort permutes, so preserves membership. -/
theorem mem_sortDesc {x : ℚ × LocalDoc} :
    ∀ {l : List (ℚ × LocalDoc)}, x ∈ sortDesc l → x ∈ l := by
  intro l
  induction l with
  | nil => intro h; simp [sortDesc] at h
  | cons a l ih =>
    intro h
    have h2 : x ∈ insDesc a (sortDesc l) := h
    rcases mem_insDesc h2 with h3 | h3
    · simp [h3]
    · simpa [List.mem_cons] using Or.inr (ih h3)

/-- Claim C10: the local file tier returns at most 3 results whatever the
store contains; every result it returns has similarity score in `(0, 1]`
(zero scores are filtered out and scores are capped at 1.0); and for a
not-connected agent `search_documents` ignores `top_k` entirely — the
fallback result is `mock_search_results`, which takes no `top_k`. -/
theorem claim_C10 :
    (∀ (ql : String) (docs : List LocalDoc),
      (localSearch ql docs).length ≤ 3) ∧
    (∀ (ql : String) (docs : List LocalDoc) (r : SearchResult),
      r ∈ localSearch ql docs →
        0 < r.similarity_score ∧ r.similarity_score ≤ 1) ∧
    (∀ (hc : Bool) (remote : List ℚ → Nat → Except String (List SearchResult))
        (q : String) (k : Nat) (db : Option (Except String (List LocalDoc))),
      search_documents false hc remote q k db = mock_search_results q db) := by
  refine ⟨?_, ?_, ?_⟩
  · intro ql docs
    simp only [localSearch, List.length_map]
    exact List.length_take_le 3 _
  · intro ql docs r hr
    simp only [localSearch, List.mem_map] at hr
    obtain ⟨p, hp, rfl⟩ := hr
    have hp2 : p ∈ sortDesc (docs.filterMap
        (fun d => if 0 < scoreDoc ql d then some (scoreDoc ql d, d) else none)) :=
      List.mem_of_mem_take hp
    have hp3 := mem_sortDesc hp2
    rw [List.mem_filterMap] at hp3
    obtain ⟨d, -, hd⟩ := hp3
    have hpos : 0 < p.1 := by
      by_cases hs : 0 < scoreDoc ql d
      · rw [if_pos hs] at hd
        cases hd
        exact hs
      · rw [if_neg hs] at hd
        cases hd
    constructor
    · exact lt_min hpos one_pos
    · exact min_le_right _ _
  · intro hc remote q k db
    simp [search_documents]

/-- A concrete stored document for the C10 witness. -/
def exDoc : LocalDoc :=
  { id := 7, text := "a",
    metadata := { filename := "", topic := "", source := "" } }

/-- The keyword score of the witness document for the query "a": a single
text match worth 0.3 (the branch selection is pure string computation; the
rational sum is left symbolic). -/
theorem exDoc_score : scoreDoc "a" exDoc = 0 + 0.3 + 0 + 0 := rfl

/-- The witness score is strictly positive. -/
theorem exDoc_pos : 0 < scoreDoc "a" exDoc := by
  rw [exDoc_score]
  norm_num

/-- The file tier on the witness store: one positive-score result. -/
theorem localSearch_exDoc :
    localSearch "a" [exDoc] =
      [{ id := 7, text := "a",
         metadata := { filename := "", topic := "", source := "" },
         similarity_score := min (scoreDoc "a" exDoc) 1 }] := by
  simp [localSearch, sortDesc, insDesc, exDoc_pos]
  exact ⟨rfl, rfl, rfl⟩

/-- Witness for C10 at a concrete store and query: the returned result has
similarity score in `(0, 1]`. -/
theorem claim_C10_witness :
    ((⟨7, "a", ⟨"", "", ""⟩, min (scoreDoc "a" exDoc) 1⟩ : SearchResult) ∈
      localSearch "a" [exDoc]) ∧
    (0 < (min (scoreDoc "a" exDoc) 1) ∧ min (scoreDoc "a" exDoc) 1 ≤ 1) := by
  have hmem : (⟨7, "a", ⟨"", "", ""⟩, min (scoreDoc "a" exDoc) 1⟩ : SearchResult) ∈
      localSearch "a" [exDoc] := by
    rw [localSearch_exDoc]
    exact List.mem_singleton.mpr rfl
  exact ⟨hmem, claim_C10.2.1 "a" [exDoc] _ hmem⟩

/-- One loop iteration preserves "every emitted chunk reached the minimum
word count": a chunk is appended only under the `current_word_count >=
min_chunk_size` guard, and its `word_count` field is that count. -/
theorem chunkStep_min (minSz maxSz overlap : Nat) (meta : DocMeta)
    (st : ChunkState) (s : String)
    (h : ∀ c ∈ st.chunks, minSz ≤ c.word_count) :
    ∀ c ∈ (chunkStep minSz maxSz overlap meta st s).chunks,
      minSz ≤ c.word_count := by
  intro c hc
  simp only [chunkStep] at hc
  by_cases hcond : maxSz < st.count + wordCount s ∧ st.current ≠ []
  · rw [if_pos hcond] at hc
    by_cases hmin : minSz ≤ st.count
    · simp only [if_pos hmin] at hc
      rcases List.mem_append.mp hc with hold | hnew
      · exact h c hold
      · rcases List.mem_singleton.mp hnew with rfl
        simpa [create_chunk] using hmin
    · simp only [if_neg hmin] at hc
      exact h c hc
  · rw [if_neg hcond] at hc
    exact h c hc

/-- The whole sentence loop preserves the minimum-size invariant. -/
theorem chunkFold_min (minSz maxSz overlap : Nat) (meta : DocMeta) :
    ∀ (sentences : List String) (st : ChunkState),
      (∀ c ∈ st.chunks, minSz ≤ c.word_count) →
      ∀ c ∈ (sentences.foldl (chunkStep minSz maxSz overlap meta) st).chunks,
        minSz ≤ c.word_count := by
  intro sentences
  induction sentences with
  | nil =>
    intro st h
    simpa using h
  | cons s rest ih =>
    intro st h
    rw [List.foldl_cons]
    exact ih _ (chunkStep_min _ _ _ _ _ _ h)

/-- The final-chunk step also preserves the invariant: the trailing chunk is
emitted only under the same minimum-size guard. -/
theorem chunkFinal_min (minSz : Nat) (meta : DocMeta) (st : ChunkState)
    (h : ∀ c ∈ st.chunks, minSz ≤ c.word_count) :
    ∀ c ∈ (if st.current ≠ [] ∧ minSz ≤ st.count
        then st.chunks ++ [create_chunk meta (joinSpace st.current) st.num st.count]
        else st.chunks), minSz ≤ c.word_count := by
  intro c hc
  by_cases hfin : st.current ≠ [] ∧ minSz ≤ st.count
  · rw [if_pos hfin] at hc
    rcases List.mem_append.mp hc with hold | hnew
    · exact h c hold
    · rcases List.mem_singleton.mp hnew with rfl
      simpa [create_chunk] using hfin.2
  · rw [if_neg hfin] at hc
    exact h c hc

/-- Claim C2, amended: for every configuration, input text and metadata,
every chunk emitted by `chunk_text` has `word_count` at least
`min_chunk_size` (under-sized accumulations — trailing or mid-stream — are
dropped, never emitted).  The claimed upper bound `max_chunk_size` does not
hold in general (see the counterexample): a single sentence longer than the
maximum, or an overlap window plus a sentence exceeding it, is emitted
oversize. -/
theorem claim_C2 (minSz maxSz overlap : Nat) (meta : DocMeta) (text : String) :
    ∀ c ∈ chunk_text minSz maxSz overlap meta text, minSz ≤ c.word_count := by
  intro c hc
  unfold chunk_text at hc
  by_cases h1 : pyStrip text = ""
  · rw [if_pos h1] at hc
    simp at hc
  · rw [if_neg h1] at hc
    exact chunkFinal_min minSz meta _
      (chunkFold_min minSz maxSz overlap meta _ _ (by simp)) c hc

/-- Metadata for the C2 witness document. -/
def wMeta : DocMeta := { filename := "guide.pdf", topic := "help" }

/-- A 250-word text (250 copies of "b"): one emitted chunk of 250 words.
(Written as a literal: the kernel evaluates literals cheaply.) -/
def wText : String := "b b b b b b b b b b b b b b b b b b b b b b b b b b b b b b b b b b b b b b b b b b b b b b b b b b b b b b b b b b b b b b b b b b b b b b b b b b b b b b b b b b b b b b b b b b b b b b b b b b b b b b b b b b b b b b b b b b b b b b b b b b b b b b b b b b b b b b b b b b b b b b b b b b b b b b b b b b b b b b b b b b b b b b b b b b b b b b b b b b b b b b b b b b b b b b b b b b b b b b b b b b b b b b b b b b b b b b b b b b b b b b b b b b b b b b b b b b b b b b b b b b b b b b b b b b"

set_option maxRecDepth 100000 in
/-- Witness for C2: on the concrete 250-word text, the emitted chunk
satisfies the minimum-size bound. -/
theorem claim_C2_witness :
    ((chunk_text 200 500 50 wMeta wText).getD 0 dummyChunk ∈
      chunk_text 200 500 50 wMeta wText) ∧
    200 ≤ ((chunk_text 200 500 50 wMeta wText).getD 0 dummyChunk).word_count :=
  ⟨by decide, claim_C2 200 500 50 wMeta wText _ (by decide)⟩

/-- Metadata for the C2 counterexample document. -/
def cexMeta : DocMeta := { filename := "long.pdf", topic := "misc" }

/-- 501 one-letter words ("a") with no sentence punctuation: a single
sentence of 501 words, as a literal. -/
def cexText : String := "a a a a a a a a a a a a a a a a a a a a a a a a a a a a a a a a a a a a a a a a a a a a a a a a a a a a a a a a a a a a a a a a a a a a a a a a a a a a a a a a a a a a a a a a a a a a a a a a a a a a a a a a a a a a a a a a a a a a a a a a a a a a a a a a a a a a a a a a a a a a a a a a a a a a a a a a a a a a a a a a a a a a a a a a a a a a a a a a a a a a a a a a a a a a a a a a a a a a a a a a a a a a a a a a a a a a a a a a a a a a a a a a a a a a a a a a a a a a a a a a a a a a a a a a a a a a a a a a a a a a a a a a a a a a a a a a a a a a a a a a a a a a a a a a a a a a a a a a a a a a a a a a a a a a a a a a a a a a a a a a a a a a a a a a a a a a a a a a a a a a a a a a a a a a a a a a a a a a a a a a a a a a a a a a a a a a a a a a a a a a a a a a a a a a a a a a a a a a a a a a a a a a a a a a a a a a a a a a a a a a a a a a a a a a a a a a a a a a a a a a a a a a a a a a a a a a a a a a a a a a a a a a a a a a a a a a a a a a a a a a a a a a a a a a a a a a a a a a a a a a a"

set_option maxRecDepth 100000 in
/-- Counterexample to claim C2 as stated: with the default configuration
`[200, 500]`, a text that is a single 501-word sentence is emitted as one
chunk of `word_count` 501, exceeding `max_chunk_size` — the violation is not
a dropped under-sized remainder. -/
theorem claim_C2_counterexample :
    (chunk_text 200 500 50 cexMeta cexText).map (fun c => c.word_count) = [501] ∧
    ¬ (∀ c ∈ chunk_text 200 500 50 cexMeta cexText, c.word_count ≤ 500) := by
  constructor
  · decide
  · decide

/-- Metadata for the C8 scenario document. -/
def m8 : DocMeta := { filename := "faq.pdf", topic := "faq" }

/-- 51 sentences of 10 words each (separated by ". "): the loop accumulates
exactly 500 words over the first 50 sentences, then sentence 51 forces the
close. -/
def text510 : String := "a a a a a a a a a a. a a a a a a a a a a. a a a a a a a a a a. a a a a a a a a a a. a a a a a a a a a a. a a a a a a a a a a. a a a a a a a a a a. a a a a a a a a a a. a a a a a a a a a a. a a a a a a a a a a. a a a a a a a a a a. a a a a a a a a a a. a a a a a a a a a a. a a a a a a a a a a. a a a a a a a a a a. a a a a a a a a a a. a a a a a a a a a a. a a a a a a a a a a. a a a a a a a a a a. a a a a a a a a a a. a a a a a a a a a a. a a a a a a a a a a. a a a a a a a a a a. a a a a a a a a a a. a a a a a a a a a a. a a a a a a a a a a. a a a a a a a a a a. a a a a a a a a a a. a a a a a a a a a a. a a a a a a a a a a. a a a a a a a a a a. a a a a a a a a a a. a a a a a a a a a a. a a a a a a a a a a. a a a a a a a a a a. a a a a a a a a a a. a a a a a a a a a a. a a a a a a a a a a. a a a a a a a a a a. a a a a a a a a a a. a a a a a a a a a a. a a a a a a a a a a. a a a a a a a a a a. a a a a a a a a a a. a a a a a a a a a a. a a a a a a a a a a. a a a a a a a a a a. a a a a a a a a a a. a a a a a a a a a a. a a a a a a a a a a. a a a a a a a a a a"

set_option maxRecDepth 100000 in
/-- Counterexample to claim C8 as stated: on the 500-words-plus-one-more
-sentence input, `chunk_text` produces one chunk, not two — the second
chunk (overlap window plus the 10-word sentence, 60 words) is below
`min_chunk_size` and is dropped. -/
theorem claim_C8_counterexample :
    (chunk_text 200 500 50 m8 text510).length = 1 ∧
    (chunk_text 200 500 50 m8 text510).length ≠ 2 := by
  constructor
  · decide
  · decide

set_option maxRecDepth 100000 in
/-- Claim C8, amended: the current chunk is closed at exactly 500 words
before the new sentence is appended — no 510-word chunk is produced — but
the trailing overlap-plus-sentence chunk is below the minimum size and is
dropped, so exactly one 500-word chunk is returned. -/
theorem claim_C8_amended :
    (chunk_text 200 500 50 m8 text510).map (fun c => c.word_count) = [500] := by
  decide

